import Mathlib

/-!
Verification of the carbon-intensity ETL pipeline of the Smart City Data Hub
repository: the transformer (`transform.py`), the extractor (`extract.py`),
the loader (`load.py`), the intensity-index utility (`utils.py`) and the
serving-layer aggregation (`carbon_service.py` / `carbon_repository.py`).

Numbers are modelled as rationals; Python dictionaries become structures whose
optional keys are `Option` fields; Python exceptions become `Option`/`Except`
results.  Definitions come first, then the theorems about the claims.
-/

namespace SmartCity

/-! ## Rounding -/

/-- Round half to even to the nearest integer, the rounding used by Python's
built-in `round`. -/
def rhe (x : ℚ) : ℤ :=
  let f := ⌊x⌋
  let r := x - f
  if r < 1/2 then f
  else if 1/2 < r then f + 1
  else if f % 2 = 0 then f else f + 1

/-- Python `round(x, 2)`: round to 2 decimal places, half to even. -/
def round2 (x : ℚ) : ℚ := (rhe (x * 100) : ℚ) / 100

/-! ## Transformer: renewable percentage -/

/-- One entry of the upstream `generationmix` array: `{"fuel": ..., "perc": ...}`. -/
structure MixItem where
  fuel : String
  perc : ℚ
  deriving Repr, DecidableEq

/-- The list `renewable_sources = ['wind', 'solar', 'hydro', 'biomass']` from
`CarbonIntensityTransformer.calculate_renewable_percentage`. -/
def renewable_sources : List String := ["wind", "solar", "hydro", "biomass"]

/-- Model of `CarbonIntensityTransformer.calculate_renewable_percentage`:
`round(sum(item['perc'] for item in generation_mix if item['fuel'] in renewable_sources), 2)`. -/
def calculate_renewable_percentage (generation_mix : List MixItem) : ℚ :=
  round2 (((generation_mix.filter
    (fun item => renewable_sources.contains item.fuel)).map MixItem.perc).sum)

/-- Modelled from the spec's words, for comparison with the source definition:
sum the `percentage` field of every generation-mix entry whose fuel-source name
is one of {wind, solar, hydro, biomass}; round to 2 decimal places. -/
def spec_renewable_percentage (generation_mix : List MixItem) : ℚ :=
  round2 (((generation_mix.filter
    (fun item => decide (item.fuel = "wind" ∨ item.fuel = "solar" ∨
      item.fuel = "hydro" ∨ item.fuel = "biomass"))).map MixItem.perc).sum)

/-! ## Timestamps: `datetime.fromisoformat` and `parse_datetime`

Strings are modelled as `List Char`.  `fromisoformat` follows CPython's
`datetime.fromisoformat`: the first ten characters must be `YYYY-MM-DD`;
character ten (any separator) is skipped; the remainder is the time part,
whose timezone suffix is located at the first `'-'`, else the first `'+'`;
a failed parse (Python `ValueError`) is `none`. -/

/-- A Python `datetime` value; `offsetSeconds = none` models a naive
datetime (no `tzinfo`), `some o` a fixed-offset timezone of `o` seconds. -/
structure PyDateTime where
  year : Nat
  month : Nat
  day : Nat
  hour : Nat
  minute : Nat
  second : Nat
  microsecond : Nat
  offsetSeconds : Option Int
  deriving Repr, DecidableEq

def toDigit (c : Char) : Option Nat :=
  if c.isDigit then some (c.toNat - 48) else none

def num2 (a b : Char) : Option Nat := do
  let x ← toDigit a
  let y ← toDigit b
  some (10 * x + y)

def num4 (a b c d : Char) : Option Nat := do
  let x ← num2 a b
  let y ← num2 c d
  some (100 * x + y)

def isLeap (y : Nat) : Bool := (y % 4 == 0 && y % 100 != 0) || y % 400 == 0

def daysInMonth (y m : Nat) : Nat :=
  if m = 2 then (if isLeap y then 29 else 28)
  else if m = 4 ∨ m = 6 ∨ m = 9 ∨ m = 11 then 30
  else 31

/-- The date part: exactly ten characters `YYYY-MM-DD` naming a valid
calendar date. -/
def parseDateStr (l : List Char) : Option (Nat × Nat × Nat) :=
  match l with
  | [a, b, c, e, s1, f, g, s2, i, j] =>
    if s1 = '-' ∧ s2 = '-' then do
      let y ← num4 a b c e
      let m ← num2 f g
      let d ← num2 i j
      if 1 ≤ m ∧ m ≤ 12 ∧ 1 ≤ d ∧ d ≤ daysInMonth y m then some (y, m, d) else none
    else none
  | _ => none

/-- Three or six fractional digits, scaled to microseconds. -/
def parseFrac : List Char → Option Nat
  | [a, b, c] => do
    let x ← toDigit a
    let y ← toDigit b
    let z ← toDigit c
    some ((100 * x + 10 * y + z) * 1000)
  | [a, b, c, d, e, f] => do
    let x ← toDigit a
    let y ← toDigit b
    let z ← toDigit c
    let u ← toDigit d
    let v ← toDigit e
    let w ← toDigit f
    some (100000 * x + 10000 * y + 1000 * z + 100 * u + 10 * v + w)
  | _ => none

/-- The time-component grammar `HH[:MM[:SS[.fff[fff]]]]`, consuming the whole
input, with the range checks done by the `datetime`/`timezone` constructors. -/
def parseHMS : List Char → Option (Nat × Nat × Nat × Nat)
  | [h1, h2] => do
    let h ← num2 h1 h2
    if h ≤ 23 then some (h, 0, 0, 0) else none
  | [h1, h2, c1, m1, m2] => do
    let h ← num2 h1 h2
    let m ← num2 m1 m2
    if c1 = ':' ∧ h ≤ 23 ∧ m ≤ 59 then some (h, m, 0, 0) else none
  | [h1, h2, c1, m1, m2, c2, s1, s2] => do
    let h ← num2 h1 h2
    let m ← num2 m1 m2
    let s ← num2 s1 s2
    if c1 = ':' ∧ c2 = ':' ∧ h ≤ 23 ∧ m ≤ 59 ∧ s ≤ 59 then some (h, m, s, 0) else none
  | h1 :: h2 :: c1 :: m1 :: m2 :: c2 :: s1 :: s2 :: c3 :: frac => do
    let h ← num2 h1 h2
    let m ← num2 m1 m2
    let s ← num2 s1 s2
    let us ← parseFrac frac
    if c1 = ':' ∧ c2 = ':' ∧ c3 = '.' ∧ h ≤ 23 ∧ m ≤ 59 ∧ s ≤ 59 then
      some (h, m, s, us)
    else none
  | _ => none

/-- First index of `c` in a character list. -/
def findIdxFrom (c : Char) : List Char → Option Nat
  | [] => none
  | a :: t => if a = c then some 0 else (findIdxFrom c t).map (· + 1)

/-- CPython locates the timezone part of the time string at the first minus
sign, else at the first plus sign (`_parse_isoformat_time`). -/
def findSign (tstr : List Char) : Option Nat :=
  match findIdxFrom '-' tstr with
  | some i => some i
  | none => findIdxFrom '+' tstr

/-- The time part of `fromisoformat`: split off the timezone suffix at the
sign character (if any), parse both sides with the `HH:MM:SS.ff` grammar; the
timezone string must have length 5, 8 or 15. -/
def parseTimePart (y m d : Nat) (tstr : List Char) : Option PyDateTime :=
  match findSign tstr with
  | none =>
    match parseHMS tstr with
    | none => none
    | some (hh, mi, ss, us) => some ⟨y, m, d, hh, mi, ss, us, none⟩
  | some i =>
    match parseHMS (tstr.take i) with
    | none => none
    | some (hh, mi, ss, us) =>
      if (tstr.drop (i + 1)).length = 5 ∨ (tstr.drop (i + 1)).length = 8 ∨
          (tstr.drop (i + 1)).length = 15 then
        match parseHMS (tstr.drop (i + 1)) with
        | none => none
        | some (oh, om, os, _ous) =>
          some ⟨y, m, d, hh, mi, ss, us,
            some ((if tstr.getD i ' ' = '-' then (-1 : Int) else 1) *
              (oh * 3600 + om * 60 + os))⟩
      else none

/-- Model of `datetime.fromisoformat`: date from the first ten characters, any single
separator character, then the time part from character eleven on; a missing
time part gives a naive midnight datetime. -/
def fromisoformat (cs : List Char) : Option PyDateTime :=
  match parseDateStr (cs.take 10) with
  | none => none
  | some (y, m, d) =>
    if (cs.drop 11).isEmpty then some ⟨y, m, d, 0, 0, 0, 0, none⟩
    else parseTimePart y m d (cs.drop 11)

/-- The `'+00:00'` characters substituted for a trailing `'Z'`. -/
def plus0000 : List Char := ['+', '0', '0', ':', '0', '0']

/-- The trailing-Z rewrite of `CarbonIntensityTransformer.parse_datetime`:
`datetime_str[:-1] + '+00:00'` when the string ends with `'Z'`. -/
def rewriteZ (cs : List Char) : List Char :=
  if cs.getLast? = some 'Z' then cs.dropLast ++ plus0000 else cs

/-- Model of `CarbonIntensityTransformer.parse_datetime`: rewrite a trailing `'Z'`,
then `datetime.fromisoformat`; `none` models the raised `ValueError`. -/
def parse_datetime (cs : List Char) : Option PyDateTime :=
  fromisoformat (rewriteZ cs)

/-! ## Transformer: `transform_regional_data` -/

/-- The `intensity` sub-dictionary of one time-windowed entry. -/
structure Intensity where
  forecast : Option Int
  index : Option String
  deriving Repr, DecidableEq

/-- One entry of a payload's `data` array: `{"from": ..., "to": ...,
"intensity": ..., "generationmix": ...}`; absent keys are `none`, except
`from`/`to` whose direct subscript access would raise `KeyError` (the claims
only concern payloads carrying both). -/
structure DataItem where
  fromStr : List Char
  toStr : List Char
  intensity : Option Intensity
  generationmix : Option (List MixItem)
  deriving Repr, DecidableEq

/-- A raw regional reading dictionary as passed around the ETL code: the keys
the extractor and transformer touch, each `none` when absent. -/
structure RegionalData where
  regionid : Option Int
  shortname : Option String
  postcode_queried : Option String
  region_id_queried : Option Int
  data : Option (List DataItem)
  deriving Repr, DecidableEq

/-- A normalized record built by `transform_regional_data` (the dictionary
appended to `records`). -/
structure CarbonRecord where
  fromTime : PyDateTime
  toTime : PyDateTime
  region_id : Option Int
  shortname : String
  postcode : String
  intensity_forecast : Option Int
  intensity_index : String
  renewable_percentage : ℚ
  deriving Repr, DecidableEq

/-- The loop body of `transform_regional_data` for one `data_item`. -/
def transformItem (raw : RegionalData) (item : DataItem) : Option CarbonRecord := do
  let fromT ← parse_datetime item.fromStr
  let toT ← parse_datetime item.toStr
  let intensity := item.intensity.getD ⟨none, none⟩
  let generation_mix := item.generationmix.getD []
  some { fromTime := fromT
         toTime := toT
         region_id := raw.regionid
         shortname := raw.shortname.getD ""
         postcode := raw.postcode_queried.getD ""
         intensity_forecast := intensity.forecast
         intensity_index := intensity.index.getD "unknown"
         renewable_percentage := calculate_renewable_percentage generation_mix }

/-- The `for data_item in raw_data.get('data', [])` loop: records accumulate
in payload order; the first uncaught error aborts the whole call. -/
def transformLoop (raw : RegionalData) : List DataItem → Option (List CarbonRecord)
  | [] => some []
  | item :: rest =>
    match transformItem raw item with
    | none => none
    | some rec =>
      match transformLoop raw rest with
      | none => none
      | some recs => some (rec :: recs)

/-- Model of `CarbonIntensityTransformer.transform_regional_data`: transform every
entry of `raw_data.get('data', [])` in order; an uncaught timestamp
`ValueError` aborts the whole call (`none`). -/
def transform_regional_data (raw : RegionalData) : Option (List CarbonRecord) :=
  transformLoop raw (raw.data.getD [])

/-! ## Extractor -/

/-- The JSON body of an upstream regional response: the `data` key holds an
array of regional readings; `none` covers both an absent key and a null value
(`'data' not in response_data or not response_data['data']` also treats the
empty array as absent, handled separately below). -/
structure ResponseBody where
  data : Option (List RegionalData)

/-- An HTTP response from the upstream carbon-intensity API. -/
structure HttpResponse where
  status_code : Nat
  body : ResponseBody

/-- Model of `CarbonIntensityExtractor.get_regional_data_by_region_id`, parameterised
by the outbound HTTP call: `None` unless the status is 200 and the payload has
a non-empty `data` array; the first element is returned with the queried
region id attached under `region_id_queried`. -/
def get_regional_data_by_region_id (http : Int → HttpResponse) (region_id : Int) :
    Option RegionalData :=
  let response := http region_id
  if response.status_code ≠ 200 then none
  else
    match response.body.data with
    | none => none
    | some [] => none
    | some (d :: _) => some { d with region_id_queried := some region_id }

/-- Model of `CarbonIntensityExtractor.get_regional_data_by_postcode`: the postcode is
sent with spaces stripped; the original postcode is attached under
`postcode_queried`. -/
def get_regional_data_by_postcode (http : String → HttpResponse) (postcode : String) :
    Option RegionalData :=
  let response := http (postcode.replace " " "")
  if response.status_code ≠ 200 then none
  else
    match response.body.data with
    | none => none
    | some [] => none
    | some (d :: _) => some { d with postcode_queried := some postcode }

/-- The result dictionary of `CarbonIntensityExtractor.get_london_data`. -/
structure LondonResults where
  london_regions : List RegionalData
  london_postcodes : List RegionalData

/-- The body of the accumulation loops in `get_london_data`:
`if data is not None: results[...].append(data)`. -/
def appendIfSome {β : Type} (acc : List β) (x : Option β) : List β :=
  match x with
  | some d => acc ++ [d]
  | none => acc

/-- Model of `CarbonIntensityExtractor.get_london_data`, parameterised by the HTTP
calls and the configured region-id and postcode lists: fetch each key in
order, appending only the non-`None` results. -/
def get_london_data (httpR : Int → HttpResponse) (httpP : String → HttpResponse)
    (region_ids : List Int) (postcodes : List String) : LondonResults :=
  let regions := region_ids.foldl (fun acc rid =>
    appendIfSome acc (get_regional_data_by_region_id httpR rid)) []
  let pcs := postcodes.foldl (fun acc pc =>
    appendIfSome acc (get_regional_data_by_postcode httpP pc)) []
  { london_regions := regions, london_postcodes := pcs }

/-! ### Concrete payloads for the spec's scenarios -/

/-- The time-windowed entry of the spec's transform scenario: from/to
timestamps, `intensity {forecast: 150, index: "moderate"}` and a generation
mix of wind 30, gas 50, solar 20. -/
def scenarioItem : DataItem :=
  { fromStr := "2024-01-15T10:00:00Z".toList
    toStr := "2024-01-15T10:30:00Z".toList
    intensity := some ⟨some 150, some "moderate"⟩
    generationmix := some [⟨"wind", 30⟩, ⟨"gas", 50⟩, ⟨"solar", 20⟩] }

/-- The spec's scenario raw reading `{"data": [scenarioItem]}` (no embedded
`regionid`). -/
def scenarioRaw : RegionalData :=
  { regionid := none, shortname := none, postcode_queried := none
    region_id_queried := none, data := some [scenarioItem] }

/-- A raw payload whose embedded `regionid` (7) differs from a queried key. -/
def rawPayload7 : RegionalData :=
  { regionid := some 7, shortname := some "London", postcode_queried := none
    region_id_queried := none, data := some [scenarioItem] }

/-- The regional payload embedded in region 13's upstream response. -/
def payload13 : RegionalData :=
  { regionid := some 13, shortname := some "London", postcode_queried := none
    region_id_queried := none, data := some [scenarioItem] }

/-- An upstream service answering every region query with `rawPayload7`. -/
def http7 : Int → HttpResponse := fun _ => ⟨200, ⟨some [rawPayload7]⟩⟩

/-- An upstream service answering region 13 with a good payload and every
other region (99 included) with HTTP 500. -/
def http1399 : Int → HttpResponse := fun rid =>
  if rid = 13 then ⟨200, ⟨some [payload13]⟩⟩ else ⟨500, ⟨none⟩⟩

/-- An upstream postcode service that always fails. -/
def httpPnone : String → HttpResponse := fun _ => ⟨500, ⟨none⟩⟩

/-! ## Loader -/

/-- MongoDB `insert_many(records, ordered=False)`, with the store's per-record
write outcome abstracted as `fails`: every record is attempted, the rejected
ones are dropped, and if any record failed a `BulkWriteError` (carrying here
the records that were written) is raised after the batch. -/
def insert_many {α : Type} (fails : α → Bool) (records : List α) :
    Except (List α) (List α) :=
  let inserted := records.filter (fun r => !fails r)
  if records.any fails then .error inserted else .ok inserted

/-- Model of `CarbonIntensityLoader.insert_records`: for a non-empty list call
`insert_many(records, ordered=False)` and return `len(records)`; return `0`
for an empty list; a `BulkWriteError` is not caught and propagates. -/
def insert_records {α : Type} (fails : α → Bool) (records : List α) :
    Except (List α) Nat :=
  if records.isEmpty then .ok 0
  else
    match insert_many fails records with
    | .error inserted => .error inserted
    | .ok _ => .ok records.length

/-! ## Utility: `calculate_intensity_index` -/

/-- The utility `calculate_intensity_index` from `utils.py`: threshold buckets on the raw
intensity value, `"unknown"` for `None`. -/
def calculate_intensity_index (intensity_value : Option ℚ) : String :=
  match intensity_value with
  | none => "unknown"
  | some v =>
    if v < 100 then "very low"
    else if v < 200 then "low"
    else if v < 250 then "moderate"
    else if v < 300 then "high"
    else "very high"

/-! ## Aggregator: repository and service

The MongoDB collection is modelled as a list of stored documents; each field
a query touches is an `Option` (absent or null key). -/

/-- A stored document, restricted to the fields the aggregation queries read. -/
structure StoredRecord where
  timestamp : Option ℚ
  fromTime : Option ℚ
  region_key : Option Int
  postcode_key : Option String
  intensity_forecast : Option ℚ
  renewable_percentage : Option ℚ
  intensity_index : Option String
  deriving Repr, DecidableEq

/-- Model of `CarbonRepository.count_all`: `count_documents({})`. -/
def count_all (db : List StoredRecord) : Nat := db.length

/-- Descending-timestamp comparison used by `find_one(sort=[("timestamp", -1)])`;
documents without the field sort last. -/
def tsAfter (a b : Option ℚ) : Bool :=
  match a, b with
  | some x, some y => decide (y < x)
  | some _, none => true
  | _, _ => false

/-- Model of `CarbonRepository.find_latest`: the stored document with the greatest
`timestamp` (first one on ties), `None` on an empty collection. -/
def find_latest (db : List StoredRecord) : Option StoredRecord :=
  db.foldl (fun best r =>
    match best with
    | none => some r
    | some b => if tsAfter r.timestamp b.timestamp then some r else best) none

/-- Model of `CarbonRepository.get_distinct_regions`: distinct values of the queried
region-id path over documents that have it. -/
def get_distinct_regions (db : List StoredRecord) : List Int :=
  (db.filterMap StoredRecord.region_key).dedup

/-- Model of `CarbonRepository.get_distinct_postcodes`. -/
def get_distinct_postcodes (db : List StoredRecord) : List String :=
  (db.filterMap StoredRecord.postcode_key).dedup

/-- Model of `CarbonRepository.get_average_intensity`: a single `$group` with
`$avg: "$intensity_forecast"`. The aggregate returns an empty result set on an
empty collection (repository returns `None`), and a null average when no
document carries a numeric value (`$avg` ignores absent/null fields); the
repository hands back `result[0]["avg_intensity"]`, so both surface as `None`. -/
def get_average_intensity (db : List StoredRecord) : Option ℚ :=
  if db.isEmpty then none
  else
    let vals := db.filterMap StoredRecord.intensity_forecast
    if vals.isEmpty then none else some (vals.sum / vals.length)

/-- Model of `CarbonRepository.get_average_renewable_percentage`: same aggregate over
`renewable_percentage`. -/
def get_average_renewable_percentage (db : List StoredRecord) : Option ℚ :=
  if db.isEmpty then none
  else
    let vals := db.filterMap StoredRecord.renewable_percentage
    if vals.isEmpty then none else some (vals.sum / vals.length)

/-- Model of `CarbonRepository.get_intensity_distribution`: `$group` by
`$intensity_index` with `$sum: 1`; a missing field groups under the null key. -/
def get_intensity_distribution (db : List StoredRecord) :
    List (Option String × Nat) :=
  (db.map StoredRecord.intensity_index).dedup.map
    (fun s => (s, (db.map StoredRecord.intensity_index).count s))

/-- Python `round(x, 2) if x else None` applied to an optional float: `None`
and `0` are both falsy. -/
def roundIfTruthy (x : Option ℚ) : Option ℚ :=
  match x with
  | none => none
  | some v => if v = 0 then none else some (round2 v)

/-- The dictionary returned by `CarbonService.get_overview_statistics`. -/
structure Overview where
  total_records : Nat
  unique_regions : Nat
  unique_postcodes : Nat
  latest_timestamp : Option ℚ
  average_intensity : Option ℚ
  average_renewable_percentage : Option ℚ
  intensity_distribution : List (Option String × Nat)
  deriving Repr, DecidableEq

/-- Model of `CarbonService.get_overview_statistics`: independent aggregate queries;
`latest.get("from") if latest else None` for the latest timestamp and
`round(avg, 2) if avg else None` for the two means. -/
def get_overview_statistics (db : List StoredRecord) : Overview :=
  { total_records := count_all db
    unique_regions := (get_distinct_regions db).length
    unique_postcodes := (get_distinct_postcodes db).length
    latest_timestamp := (find_latest db).bind StoredRecord.fromTime
    average_intensity := roundIfTruthy (get_average_intensity db)
    average_renewable_percentage := roundIfTruthy (get_average_renewable_percentage db)
    intensity_distribution := get_intensity_distribution db }

/-- A one-document collection whose means are exactly 0. -/
def db0 : List StoredRecord :=
  [⟨none, none, none, none, some 0, some 0, none⟩]

/-- A one-document collection with non-zero means. -/
def db1 : List StoredRecord :=
  [⟨none, none, none, none, some 150, some 50, none⟩]

/-! ## Service: create / update validation -/

/-- The payload fields of a create/update request that the service validates. -/
structure CarbonData where
  intensity_index : Option String
  postcode : Option String
  renewable_percentage : Option ℚ
  deriving Repr, DecidableEq

/-- The list `valid_indices = ['low', 'moderate', 'high', 'very high']` from
`CarbonService.create_carbon_record` / `update_carbon_record`. -/
def valid_indices : List String := ["low", "moderate", "high", "very high"]

/-- Python `str.lower()` (ASCII case folding). -/
def pyLower (s : String) : String := ⟨s.data.map Char.toLower⟩

/-- Python `str.upper()` (ASCII case folding). -/
def pyUpper (s : String) : String := ⟨s.data.map Char.toUpper⟩

/-- The range check on a present `renewable_percentage`: outside [0, 100] is
an HTTP 400. -/
def checkRenewable (d2 : CarbonData) : Except Nat CarbonData :=
  match d2.renewable_percentage with
  | some rp => if rp < 0 ∨ rp > 100 then .error 400 else .ok d2
  | none => .ok d2

/-- The postcode normalisation (a truthy `postcode` is stripped and
uppercased) followed by the renewable-percentage range check, shared by
`create_carbon_record` and `update_carbon_record`. -/
def validate_rest (d : CarbonData) : Except Nat CarbonData :=
  checkRenewable
    (match d.postcode with
     | some pc => if pc = "" then d else { d with postcode := some (pyUpper pc.trim) }
     | none => d)

/-- The validation/normalisation both service write paths run: a truthy
`intensity_index` must lowercase into `valid_indices` (else HTTP 400) and is
stored lowercased, then the postcode and renewable-percentage checks. -/
def validate_carbon_payload (d : CarbonData) : Except Nat CarbonData :=
  match d.intensity_index with
  | some idx =>
    if idx = "" then validate_rest d
    else if valid_indices.contains (pyLower idx) then
      validate_rest { d with intensity_index := some (pyLower idx) }
    else .error 400
  | none => validate_rest d

/-- Model of `CarbonRepository.create`: `insert_one` then `find_one` on the inserted
id; always succeeds and returns the stored document. -/
def repository_create (d : CarbonData) : Option CarbonData := some d

/-- Model of `CarbonService.create_carbon_record`: validate, then create through the
repository (HTTP 500 if the store returned nothing). -/
def create_carbon_record (d : CarbonData) : Except Nat CarbonData :=
  match validate_carbon_payload d with
  | .error e => .error e
  | .ok d' =>
    match repository_create d' with
    | some created => .ok created
    | none => .error 500

/-- Model of `CarbonService.update_carbon_record`, with the repository lookup outcome
abstracted as `found`: validate, then update; HTTP 404 when the record id
does not resolve. -/
def update_carbon_record (found : Bool) (d : CarbonData) : Except Nat CarbonData :=
  match validate_carbon_payload d with
  | .error e => .error e
  | .ok d' => if found then .ok d' else .error 404

/-! ## Theorems -/

lemma floor_le_rhe (x : ℚ) : ⌊x⌋ ≤ rhe x := by
  unfold rhe
  dsimp only
  split
  · exact le_refl _
  · split
    · exact le_of_lt (lt_add_one _)
    · split
      · exact le_refl _
      · exact le_of_lt (lt_add_one _)

lemma rhe_le_ceil (x : ℚ) : rhe x ≤ ⌈x⌉ := by
  unfold rhe
  dsimp only
  have hfc : ⌊x⌋ ≤ ⌈x⌉ := Int.floor_le_ceil x
  have hfrac : (0:ℚ) ≤ x - ⌊x⌋ := by
    have := Int.floor_le x
    linarith
  split
  · exact hfc
  · rename_i h1
    have hlt : ((⌊x⌋ : ℤ) : ℚ) < x := by
      have : (1:ℚ)/2 ≤ x - ⌊x⌋ := le_of_not_lt h1
      linarith
    have hsucc : ⌊x⌋ + 1 ≤ ⌈x⌉ := by
      have : ⌊x⌋ < ⌈x⌉ := Int.lt_ceil.mpr hlt
      omega
    split
    · exact hsucc
    · split
      · exact le_trans (by omega) hsucc
      · exact hsucc

lemma rhe_nonneg {x : ℚ} (hx : 0 ≤ x) : 0 ≤ rhe x :=
  le_trans (Int.floor_nonneg.mpr hx) (floor_le_rhe x)

lemma round2_nonneg {x : ℚ} (hx : 0 ≤ x) : 0 ≤ round2 x := by
  unfold round2
  have h : (0:ℚ) ≤ (rhe (x * 100) : ℚ) := by
    exact_mod_cast rhe_nonneg (by positivity)
  positivity

lemma round2_le_100 {x : ℚ} (hx : x ≤ 100) : round2 x ≤ 100 := by
  unfold round2
  have h1 : rhe (x * 100) ≤ ⌈x * 100⌉ := rhe_le_ceil _
  have h2 : ⌈x * 100⌉ ≤ (10000 : ℤ) := by
    rw [Int.ceil_le]
    push_cast
    linarith
  have h3 : (rhe (x * 100) : ℚ) ≤ 10000 := by exact_mod_cast le_trans h1 h2
  linarith

lemma sum_filter_le_sum (p : MixItem → Bool) (l : List MixItem)
    (h : ∀ i ∈ l, 0 ≤ i.perc) :
    ((l.filter p).map MixItem.perc).sum ≤ (l.map MixItem.perc).sum := by
  induction l with
  | nil => simp
  | cons hd tl ih =>
    have hhd : 0 ≤ hd.perc := h hd (List.mem_cons_self _ _)
    have htl : ∀ i ∈ tl, 0 ≤ i.perc := fun i hi => h i (List.mem_cons_of_mem _ hi)
    by_cases hp : p hd
    · simp only [List.filter_cons, hp, if_pos, List.map_cons, List.sum_cons]
      exact add_le_add_left (ih htl) _
    · simp only [List.filter_cons, hp, Bool.false_eq_true, if_false,
        List.map_cons, List.sum_cons]
      calc ((tl.filter p).map MixItem.perc).sum ≤ (tl.map MixItem.perc).sum := ih htl
        _ ≤ hd.perc + (tl.map MixItem.perc).sum := by linarith

lemma sum_filter_nonneg (p : MixItem → Bool) (l : List MixItem)
    (h : ∀ i ∈ l, 0 ≤ i.perc) :
    0 ≤ ((l.filter p).map MixItem.perc).sum := by
  apply List.sum_nonneg
  intro a ha
  simp only [List.mem_map, List.mem_filter] at ha
  obtain ⟨i, ⟨hi, _⟩, rfl⟩ := ha
  exact h i hi

/-- C1: `calculate_renewable_percentage` sums the percentages of exactly the
entries whose fuel is one of wind/solar/hydro/biomass, rounded to 2 decimal
places; the empty mix gives exactly 0; and when all percentages are
non-negative and sum to at most 100 the result lies in [0, 100]. -/
theorem C1_calculate_renewable_percentage :
    (∀ mix : List MixItem,
      calculate_renewable_percentage mix = spec_renewable_percentage mix) ∧
    calculate_renewable_percentage [] = 0 ∧
    (∀ mix : List MixItem, (∀ item ∈ mix, 0 ≤ item.perc) →
      (mix.map MixItem.perc).sum ≤ 100 →
      0 ≤ calculate_renewable_percentage mix ∧
        calculate_renewable_percentage mix ≤ 100) := by
  refine ⟨?_, ?_, ?_⟩
  · intro mix
    unfold calculate_renewable_percentage spec_renewable_percentage
    have hf : (mix.filter (fun item => renewable_sources.contains item.fuel)) =
        (mix.filter (fun item => decide (item.fuel = "wind" ∨ item.fuel = "solar" ∨
          item.fuel = "hydro" ∨ item.fuel = "biomass"))) := by
      apply List.filter_congr
      intro item _
      simp [renewable_sources]
    rw [hf]
  · simp [calculate_renewable_percentage, round2, rhe]
  · intro mix hnn hsum
    constructor
    · exact round2_nonneg (sum_filter_nonneg _ _ hnn)
    · exact round2_le_100 (le_trans (sum_filter_le_sum _ _ hnn) hsum)

/-- Witness for C1 at the spec's scenario mix
`[{wind, 30}, {gas, 50}, {solar, 20}]`. -/
theorem C1_calculate_renewable_percentage_witness :
    (∀ item ∈ [MixItem.mk "wind" 30, MixItem.mk "gas" 50, MixItem.mk "solar" 20],
      0 ≤ item.perc) ∧
    0 ≤ calculate_renewable_percentage
        [MixItem.mk "wind" 30, MixItem.mk "gas" 50, MixItem.mk "solar" 20] ∧
    calculate_renewable_percentage
        [MixItem.mk "wind" 30, MixItem.mk "gas" 50, MixItem.mk "solar" 20] ≤ 100 := by
  have h1 : ∀ item ∈ [MixItem.mk "wind" 30, MixItem.mk "gas" 50,
      MixItem.mk "solar" 20], 0 ≤ item.perc := by
    intro item hitem
    simp only [List.mem_cons, List.not_mem_nil, or_false] at hitem
    rcases hitem with rfl | rfl | rfl <;> norm_num
  have h2 : (([MixItem.mk "wind" 30, MixItem.mk "gas" 50,
      MixItem.mk "solar" 20]).map MixItem.perc).sum ≤ 100 := by
    norm_num [List.map_cons, List.sum_cons]
  exact ⟨h1, C1_calculate_renewable_percentage.2.2 _ h1 h2⟩

lemma findIdxFrom_eq_none {c : Char} {l : List Char}
    (h : findIdxFrom c l = none) : c ∉ l := by
  induction l with
  | nil => simp
  | cons a t ih =>
    simp only [findIdxFrom] at h
    split at h
    · exact absurd h (by simp)
    · rename_i ha
      rw [Option.map_eq_none'] at h
      simp only [List.mem_cons, not_or]
      exact ⟨fun hc => ha hc.symm, ih h⟩

lemma findSign_plus_not_mem {tstr : List Char} (h : findSign tstr = none) :
    '+' ∉ tstr := by
  unfold findSign at h
  split at h
  · exact absurd h (by simp)
  · exact findIdxFrom_eq_none h

/-- C7: for a string ending in `'Z'`, `parse_datetime` parses the string with
the trailing `'Z'` replaced by `'+00:00'`, and — for an ISO-8601 extended
datetime string, i.e. one whose character at index 10 is the `'T'` separator —
any successful parse is timezone-aware; a string not ending in `'Z'` is parsed
unchanged, so the trailing-Z rewrite is the only timezone normalization. -/
theorem C7_parse_datetime_trailing_z (cs : List Char) :
    (cs.getLast? = some 'Z' →
      parse_datetime cs = fromisoformat (cs.dropLast ++ plus0000) ∧
      ∀ d : PyDateTime, cs[10]? = some 'T' →
        parse_datetime cs = some d → d.offsetSeconds.isSome) ∧
    (cs.getLast? ≠ some 'Z' → parse_datetime cs = fromisoformat cs) := by
  constructor
  · intro hZ
    have heq : parse_datetime cs = fromisoformat (cs.dropLast ++ plus0000) := by
      unfold parse_datetime rewriteZ
      rw [if_pos hZ]
    refine ⟨heq, ?_⟩
    intro d hT hparse
    have h10 : 10 < cs.length := by
      by_contra hlen
      push_neg at hlen
      rw [List.getElem?_eq_none hlen] at hT
      exact absurd hT (by simp)
    have hlen12 : 12 ≤ cs.length := by
      by_contra hlen
      push_neg at hlen
      have heqidx : cs.getLast? = cs[10]? := by
        rw [List.getLast?_eq_getElem?]
        congr 1
        omega
      rw [heqidx, hT] at hZ
      exact absurd hZ (by simp)
    have hdl : cs.dropLast.length = cs.length - 1 := by
      simp [List.length_dropLast]
    have htstr : (cs.dropLast ++ plus0000).drop 11 =
        cs.dropLast.drop 11 ++ plus0000 := by
      rw [List.drop_append_eq_append_drop]
      have hz : 11 - cs.dropLast.length = 0 := by omega
      rw [hz]
      rfl
    have hplus : '+' ∈ (cs.dropLast ++ plus0000).drop 11 := by
      rw [htstr]
      exact List.mem_append_right _ (by simp [plus0000])
    rw [heq] at hparse
    have hne : ((cs.dropLast ++ plus0000).drop 11).isEmpty = false := by
      have hne' : (cs.dropLast ++ plus0000).drop 11 ≠ [] :=
        List.ne_nil_of_mem hplus
      cases he : ((cs.dropLast ++ plus0000).drop 11).isEmpty
      · rfl
      · exact absurd (List.isEmpty_iff.mp he) hne'
    unfold fromisoformat at hparse
    split at hparse
    · exact absurd hparse (by simp)
    · rw [hne] at hparse
      simp only [Bool.false_eq_true, if_false] at hparse
      unfold parseTimePart at hparse
      split at hparse
      · rename_i hfs
        exact absurd hplus (findSign_plus_not_mem hfs)
      · split at hparse
        · exact absurd hparse (by simp)
        · split at hparse
          · split at hparse
            · exact absurd hparse (by simp)
            · obtain rfl := Option.some.inj hparse
              simp
          · exact absurd hparse (by simp)
  · intro hnZ
    unfold parse_datetime rewriteZ
    rw [if_neg hnZ]

/-- Witness for C7 at the scenario timestamp `2024-01-15T10:00:00Z`. -/
theorem C7_parse_datetime_trailing_z_witness :
    "2024-01-15T10:00:00Z".toList.getLast? = some 'Z' ∧
    parse_datetime "2024-01-15T10:00:00Z".toList =
      fromisoformat ("2024-01-15T10:00:00Z".toList.dropLast ++ plus0000) ∧
    (PyDateTime.mk 2024 1 15 10 0 0 0 (some 0)).offsetSeconds.isSome := by
  have hZ : "2024-01-15T10:00:00Z".toList.getLast? = some 'Z' := by decide
  have h := (C7_parse_datetime_trailing_z "2024-01-15T10:00:00Z".toList).1 hZ
  exact ⟨hZ, h.1,
    h.2 (PyDateTime.mk 2024 1 15 10 0 0 0 (some 0)) (by decide) (by decide)⟩

/-- C8: the intensity-index utility maps values below 100 to very low,
[100, 200) to low, [200, 250) to moderate, [250, 300) to high, 300 and above
to very high, and a `None` input to unknown; in particular 275 maps to high. -/
theorem C8_calculate_intensity_index :
    (∀ v : ℚ,
      (v < 100 → calculate_intensity_index (some v) = "very low") ∧
      (100 ≤ v → v < 200 → calculate_intensity_index (some v) = "low") ∧
      (200 ≤ v → v < 250 → calculate_intensity_index (some v) = "moderate") ∧
      (250 ≤ v → v < 300 → calculate_intensity_index (some v) = "high") ∧
      (300 ≤ v → calculate_intensity_index (some v) = "very high")) ∧
    calculate_intensity_index none = "unknown" ∧
    calculate_intensity_index (some 275) = "high" := by
  have hmain : ∀ v : ℚ,
      (v < 100 → calculate_intensity_index (some v) = "very low") ∧
      (100 ≤ v → v < 200 → calculate_intensity_index (some v) = "low") ∧
      (200 ≤ v → v < 250 → calculate_intensity_index (some v) = "moderate") ∧
      (250 ≤ v → v < 300 → calculate_intensity_index (some v) = "high") ∧
      (300 ≤ v → calculate_intensity_index (some v) = "very high") := by
    intro v
    refine ⟨fun h => ?_, fun h1 h2 => ?_, fun h1 h2 => ?_, fun h1 h2 => ?_,
      fun h => ?_⟩
    · simp [calculate_intensity_index, h]
    · have hn : ¬ v < 100 := by linarith
      simp [calculate_intensity_index, hn, h2]
    · have hn1 : ¬ v < 100 := by linarith
      have hn2 : ¬ v < 200 := by linarith
      simp [calculate_intensity_index, hn1, hn2, h2]
    · have hn1 : ¬ v < 100 := by linarith
      have hn2 : ¬ v < 200 := by linarith
      have hn3 : ¬ v < 250 := by linarith
      simp [calculate_intensity_index, hn1, hn2, hn3, h2]
    · have hn1 : ¬ v < 100 := by linarith
      have hn2 : ¬ v < 200 := by linarith
      have hn3 : ¬ v < 250 := by linarith
      have hn4 : ¬ v < 300 := by linarith
      simp [calculate_intensity_index, hn1, hn2, hn3, hn4]
  refine ⟨hmain, rfl, ?_⟩
  exact (hmain 275).2.2.2.1 (by norm_num) (by norm_num)

/-- Witness for C8 at the scenario input 275. -/
theorem C8_calculate_intensity_index_witness :
    (250 : ℚ) ≤ 275 ∧ (275 : ℚ) < 300 ∧
    calculate_intensity_index (some 275) = "high" :=
  ⟨by norm_num, by norm_num,
    (C8_calculate_intensity_index.1 275).2.2.2.1 (by norm_num) (by norm_num)⟩

lemma transformItem_eq_none {raw : RegionalData} {item : DataItem}
    (h : parse_datetime item.fromStr = none ∨ parse_datetime item.toStr = none) :
    transformItem raw item = none := by
  unfold transformItem
  rcases h with h | h
  · simp [h]
  · cases hf : parse_datetime item.fromStr
    · simp
    · simp [h]

lemma transformLoop_eq_none_of_mem {raw : RegionalData} {l : List DataItem}
    {x : DataItem} (hmem : x ∈ l) (hx : transformItem raw x = none) :
    transformLoop raw l = none := by
  induction l with
  | nil => simp at hmem
  | cons a t ih =>
    unfold transformLoop
    rcases List.mem_cons.mp hmem with rfl | hmt
    · rw [hx]
    · cases hfa : transformItem raw a
      · rfl
      · rw [ih hmt]

/-- C6: a raw reading with an entry whose from/to timestamp fails to parse
(after the trailing-Z rewrite) makes `transform_regional_data` abort as a
whole with the uncaught error, returning no records. -/
theorem C6_transform_aborts_on_bad_timestamp (raw : RegionalData) :
    (∃ item ∈ raw.data.getD [], parse_datetime item.fromStr = none ∨
      parse_datetime item.toStr = none) →
    transform_regional_data raw = none := by
  rintro ⟨item, hmem, hbad⟩
  unfold transform_regional_data
  exact transformLoop_eq_none_of_mem hmem (transformItem_eq_none hbad)

/-- Witness for C6: a reading whose single entry has a malformed `from`. -/
theorem C6_transform_aborts_on_bad_timestamp_witness :
    (∃ item ∈ (RegionalData.mk none none none none
        (some [DataItem.mk "not-a-date".toList "2024-01-15T10:30:00Z".toList
          none none])).data.getD [],
      parse_datetime item.fromStr = none ∨ parse_datetime item.toStr = none) ∧
    transform_regional_data (RegionalData.mk none none none none
        (some [DataItem.mk "not-a-date".toList "2024-01-15T10:30:00Z".toList
          none none])) = none := by
  have hex : ∃ item ∈ (RegionalData.mk none none none none
      (some [DataItem.mk "not-a-date".toList "2024-01-15T10:30:00Z".toList
        none none])).data.getD [],
      parse_datetime item.fromStr = none ∨ parse_datetime item.toStr = none := by
    refine ⟨DataItem.mk "not-a-date".toList "2024-01-15T10:30:00Z".toList
      none none, by simp, Or.inl ?_⟩
    decide
  exact ⟨hex, C6_transform_aborts_on_bad_timestamp _ hex⟩

lemma rhe_intCast (n : ℤ) : rhe (n : ℚ) = n := by
  unfold rhe
  rw [Int.floor_intCast]
  norm_num

lemma round2_intCast (n : ℤ) : round2 (n : ℚ) = n := by
  unfold round2
  rw [show ((n : ℚ) * 100) = ((n * 100 : ℤ) : ℚ) by push_cast; ring, rhe_intCast]
  push_cast
  field_simp

lemma transformItem_region_id {raw : RegionalData} {item : DataItem}
    {rec : CarbonRecord} (h : transformItem raw item = some rec) :
    rec.region_id = raw.regionid := by
  unfold transformItem at h
  cases hf : parse_datetime item.fromStr with
  | none => rw [hf] at h; simp at h
  | some ft =>
    rw [hf] at h
    cases ht : parse_datetime item.toStr with
    | none => rw [ht] at h; simp at h
    | some tt =>
      rw [ht] at h
      simp only [Option.some_bind] at h
      obtain rfl := Option.some.inj h
      rfl

lemma transformLoop_mem {raw : RegionalData} {l : List DataItem}
    {recs : List CarbonRecord} (h : transformLoop raw l = some recs) :
    ∀ rec ∈ recs, ∃ item ∈ l, transformItem raw item = some rec := by
  induction l generalizing recs with
  | nil =>
    unfold transformLoop at h
    obtain rfl := Option.some.inj h
    intro rec hrec
    simp at hrec
  | cons a t ih =>
    unfold transformLoop at h
    split at h
    · exact absurd h (by simp)
    · rename_i r0 ha
      split at h
      · exact absurd h (by simp)
      · rename_i rs htl
        obtain rfl := Option.some.inj h
        intro rec hrec
        rcases List.mem_cons.mp hrec with rfl | hmt
        · exact ⟨a, List.mem_cons_self _ _, ha⟩
        · obtain ⟨it, hit, hfit⟩ := ih htl rec hmt
          exact ⟨it, List.mem_cons_of_mem _ hit, hfit⟩

/-- C2 as stated is false on the code: `transform_regional_data` fills
`region_id` from the payload's embedded `regionid`, not from the queried key;
querying region 13 against a payload embedding `regionid = 7` produces a
record with `region_id = 7`. -/
theorem C2_counterexample :
    ¬ (∀ (http : Int → HttpResponse) (r : Int) (raw : RegionalData)
        (recs : List CarbonRecord),
        get_regional_data_by_region_id http r = some raw →
        transform_regional_data raw = some recs →
        ∀ rec ∈ recs, rec.region_id = some r) := by
  intro hclaim
  have hext : get_regional_data_by_region_id http7 13 =
      some { rawPayload7 with region_id_queried := some 13 } := rfl
  have hproj : (transform_regional_data
      { rawPayload7 with region_id_queried := some 13 }).map
      (List.map CarbonRecord.region_id) = some [some 7] := by decide
  cases htr : transform_regional_data
      { rawPayload7 with region_id_queried := some 13 } with
  | none =>
    rw [htr] at hproj
    exact absurd hproj (by simp)
  | some recs =>
    rw [htr] at hproj
    simp at hproj
    rcases recs with _ | ⟨rec, rest⟩
    · simp at hproj
    · simp at hproj
      have h7 : rec.region_id = some 7 := hproj.1
      have h13 : rec.region_id = some 13 :=
        hclaim http7 13 _ _ hext htr rec (List.mem_cons_self _ _)
      rw [h13] at h7
      exact absurd h7 (by simp)

/-- C2 (amended): every record produced by `transform_regional_data` carries
`region_id` equal to the raw payload's embedded `regionid` (`None` when
absent) — the queried key attached by the extractor as `region_id_queried` is
not propagated; the spec's scenario reading (no embedded `regionid`, queried
for region 13) transforms to exactly one record with `region_id = None`,
`intensity_forecast = 150`, `intensity_index = "moderate"` and
`renewable_percentage = 50`. -/
theorem C2_amended_transform_region_id :
    (∀ (raw : RegionalData) (recs : List CarbonRecord),
      transform_regional_data raw = some recs →
      ∀ rec ∈ recs, rec.region_id = raw.regionid) ∧
    (transform_regional_data scenarioRaw).map
      (List.map fun rec =>
        (rec.region_id, rec.intensity_forecast, rec.intensity_index)) =
      some [(none, some 150, "moderate")] ∧
    (transform_regional_data scenarioRaw).map
      (List.map CarbonRecord.renewable_percentage) = some [50] := by
  refine ⟨?_, by decide, ?_⟩
  · intro raw recs htr rec hrec
    obtain ⟨item, _, hitem⟩ := transformLoop_mem htr rec hrec
    exact transformItem_region_id hitem
  · have h : (transform_regional_data scenarioRaw).map
        (List.map CarbonRecord.renewable_percentage) =
        some [round2 ((30 : ℚ) + (20 + 0))] := rfl
    rw [h]
    have h2 : ((30 : ℚ) + (20 + 0)) = ((50 : ℤ) : ℚ) := by norm_num
    rw [h2, round2_intCast]
    norm_num

/-- Witness for C2 (amended) at the payload embedding `regionid = 7`. -/
theorem C2_amended_transform_region_id_witness :
    transform_regional_data rawPayload7 = some [CarbonRecord.mk
      (PyDateTime.mk 2024 1 15 10 0 0 0 (some 0))
      (PyDateTime.mk 2024 1 15 10 30 0 0 (some 0))
      (some 7) "London" "" (some 150) "moderate"
      (calculate_renewable_percentage [⟨"wind", 30⟩, ⟨"gas", 50⟩, ⟨"solar", 20⟩])] ∧
    (CarbonRecord.mk
      (PyDateTime.mk 2024 1 15 10 0 0 0 (some 0))
      (PyDateTime.mk 2024 1 15 10 30 0 0 (some 0))
      (some 7) "London" "" (some 150) "moderate"
      (calculate_renewable_percentage [⟨"wind", 30⟩, ⟨"gas", 50⟩, ⟨"solar", 20⟩])).region_id =
      rawPayload7.regionid := by
  have htr : transform_regional_data rawPayload7 = some [CarbonRecord.mk
      (PyDateTime.mk 2024 1 15 10 0 0 0 (some 0))
      (PyDateTime.mk 2024 1 15 10 30 0 0 (some 0))
      (some 7) "London" "" (some 150) "moderate"
      (calculate_renewable_percentage [⟨"wind", 30⟩, ⟨"gas", 50⟩, ⟨"solar", 20⟩])] := rfl
  exact ⟨htr, C2_amended_transform_region_id.1 rawPayload7 _ htr _
    (List.mem_cons_self _ _)⟩

lemma appendIfSome_none {β : Type} (acc : List β) :
    appendIfSome acc none = acc := rfl

lemma appendIfSome_some {β : Type} (acc : List β) (d : β) :
    appendIfSome acc (some d) = acc ++ [d] := rfl

lemma foldl_opt_append {α β : Type} (f : α → Option β) (l : List α) :
    ∀ acc : List β,
      l.foldl (fun acc x => appendIfSome acc (f x)) acc =
        acc ++ l.filterMap f := by
  induction l with
  | nil => intro acc; simp
  | cons a t ih =>
    intro acc
    simp only [List.foldl_cons, List.filterMap_cons]
    cases hfa : f a
    · rw [appendIfSome_none]
      exact ih acc
    · rw [appendIfSome_some, ih]
      simp

/-- C5: a region or postcode fetch returns `None` on a non-200 status, a
missing `data` key, or an empty `data` array; the batch method keeps exactly
the successful fetches, in order; in the spec's scenario (region 13 good,
region 99 answering HTTP 500) the batch yields exactly region 13's entry. -/
theorem C5_extractor_skips_failures :
    (∀ (http : Int → HttpResponse) (rid : Int),
      ((http rid).status_code ≠ 200 →
        get_regional_data_by_region_id http rid = none) ∧
      ((http rid).body.data = none →
        get_regional_data_by_region_id http rid = none) ∧
      ((http rid).body.data = some [] →
        get_regional_data_by_region_id http rid = none)) ∧
    (∀ (http : String → HttpResponse) (pc : String),
      ((http (pc.replace " " "")).status_code ≠ 200 →
        get_regional_data_by_postcode http pc = none) ∧
      ((http (pc.replace " " "")).body.data = none →
        get_regional_data_by_postcode http pc = none) ∧
      ((http (pc.replace " " "")).body.data = some [] →
        get_regional_data_by_postcode http pc = none)) ∧
    (∀ (httpR : Int → HttpResponse) (httpP : String → HttpResponse)
      (rids : List Int) (pcs : List String),
      (get_london_data httpR httpP rids pcs).london_regions =
        rids.filterMap (get_regional_data_by_region_id httpR) ∧
      (get_london_data httpR httpP rids pcs).london_postcodes =
        pcs.filterMap (get_regional_data_by_postcode httpP)) ∧
    (get_london_data http1399 httpPnone [13, 99] []).london_regions =
      [{ payload13 with region_id_queried := some 13 }] := by
  refine ⟨?_, ?_, ?_, ?_⟩
  · intro http rid
    refine ⟨fun h => ?_, fun h => ?_, fun h => ?_⟩ <;>
      simp [get_regional_data_by_region_id, h]
  · intro http pc
    refine ⟨fun h => ?_, fun h => ?_, fun h => ?_⟩ <;>
      simp [get_regional_data_by_postcode, h]
  · intro httpR httpP rids pcs
    constructor
    · show rids.foldl _ [] = _
      rw [foldl_opt_append]
      simp
    · show pcs.foldl _ [] = _
      rw [foldl_opt_append]
      simp
  · rfl

/-- Witness for C5: region 99's HTTP 500 response makes the single fetch
return `None`. -/
theorem C5_extractor_skips_failures_witness :
    (http1399 99).status_code ≠ 200 ∧
    get_regional_data_by_region_id http1399 99 = none := by
  have h : (http1399 99).status_code ≠ 200 := by decide
  exact ⟨h, (C5_extractor_skips_failures.1 http1399 99).1 h⟩

/-- C3 as stated is false on the code: with one failing record in a batch of
two, `insert_records` does not return the success count — the
`BulkWriteError` propagates (the non-failing record is still inserted). -/
theorem C3_counterexample :
    insert_records (fun n : Nat => n == 2) [1, 2] = .error [1] ∧
    ¬ insert_records (fun n : Nat => n == 2) [1, 2] =
      .ok (([1, 2].filter (fun n : Nat => !(n == 2))).length) := by
  have h : insert_records (fun n : Nat => n == 2) [1, 2] = .error [1] := rfl
  refine ⟨h, ?_⟩
  rw [h]
  simp

/-- C3 (amended): `insert_records` returns 0 on the empty list and
`len(records)` when every record inserts; when some record fails the
unordered bulk insert still writes every non-failing record, but the
`BulkWriteError` propagates instead of a count being returned. -/
theorem C3_amended_insert_records (α : Type) (fails : α → Bool)
    (records : List α) :
    (records = [] → insert_records fails records = .ok 0) ∧
    ((∀ r ∈ records, fails r = false) →
      insert_records fails records = .ok records.length) ∧
    (records ≠ [] → (∃ r ∈ records, fails r = true) →
      insert_records fails records = .error
        (records.filter (fun r => !fails r))) := by
  refine ⟨?_, ?_, ?_⟩
  · rintro rfl
    rfl
  · intro hall
    have hany : records.any fails = false := by
      rw [List.any_eq_false]
      intro x hx
      simp [hall x hx]
    by_cases hr : records.isEmpty
    · have : records = [] := List.isEmpty_iff.mp hr
      subst this
      rfl
    · have hrf : records.isEmpty = false := by
        cases he : records.isEmpty
        · rfl
        · exact absurd he hr
      unfold insert_records insert_many
      rw [hrf, hany]
      simp
  · intro hne hex
    have hany : records.any fails = true := by
      rw [List.any_eq_true]
      obtain ⟨r, hr, hf⟩ := hex
      exact ⟨r, hr, by simp [hf]⟩
    have hrf : records.isEmpty = false := by
      cases he : records.isEmpty
      · rfl
      · exact absurd (List.isEmpty_iff.mp he) hne
    unfold insert_records insert_many
    rw [hrf, hany]
    simp

/-- Witness for C3 (amended): an all-good batch returns its length; a batch
with one failing record raises, carrying the inserted survivor. -/
theorem C3_amended_insert_records_witness :
    insert_records (fun n : Nat => n == 2) [1, 3] = .ok 2 ∧
    insert_records (fun n : Nat => n == 2) [1, 2] = .error [1] := by
  have h1 : ∀ r ∈ ([1, 3] : List Nat), (fun n : Nat => n == 2) r = false := by
    decide
  have h2 : ([1, 2] : List Nat) ≠ [] := by simp
  have h3 : ∃ r ∈ ([1, 2] : List Nat), (fun n : Nat => n == 2) r = true :=
    ⟨2, by simp, by decide⟩
  exact ⟨(C3_amended_insert_records Nat _ [1, 3]).2.1 h1,
    (C3_amended_insert_records Nat _ [1, 2]).2.2 h2 h3⟩

/-- C4 as stated is false on the code: a non-empty record set whose mean
intensity is exactly 0 surfaces the mean as null even though the aggregate
matched a document. -/
theorem C4_counterexample :
    db0 ≠ [] ∧
    get_average_intensity db0 = some 0 ∧
    (get_overview_statistics db0).average_intensity = none ∧
    (get_overview_statistics db0).average_intensity ≠ some (round2 0) := by
  have havg : get_average_intensity db0 = some 0 := by
    simp [get_average_intensity, db0]
  have hover : (get_overview_statistics db0).average_intensity = none := by
    show roundIfTruthy (get_average_intensity db0) = none
    rw [havg]
    simp [roundIfTruthy]
  refine ⟨by simp [db0], havg, hover, ?_⟩
  rw [hover]
  simp

/-- C4 (amended): the overview's mean fields surface as null exactly when the
aggregate returns no mean (no documents, or no numeric values) or the mean is
exactly 0 (Python truthiness); a non-zero mean surfaces rounded to 2 decimal
places; the empty record set gives `total_records = 0` and all mean and
latest fields null. -/
theorem C4_amended_overview_nulls :
    (∀ db : List StoredRecord,
      ((get_overview_statistics db).average_intensity = none ↔
        get_average_intensity db = none ∨ get_average_intensity db = some 0) ∧
      (∀ v : ℚ, get_average_intensity db = some v → v ≠ 0 →
        (get_overview_statistics db).average_intensity = some (round2 v)) ∧
      ((get_overview_statistics db).average_renewable_percentage = none ↔
        get_average_renewable_percentage db = none ∨
          get_average_renewable_percentage db = some 0) ∧
      (∀ v : ℚ, get_average_renewable_percentage db = some v → v ≠ 0 →
        (get_overview_statistics db).average_renewable_percentage =
          some (round2 v))) ∧
    get_overview_statistics [] = ⟨0, 0, 0, none, none, none, []⟩ := by
  constructor
  · intro db
    refine ⟨?_, ?_, ?_, ?_⟩
    · show roundIfTruthy (get_average_intensity db) = none ↔ _
      cases h : get_average_intensity db with
      | none => simp [roundIfTruthy]
      | some v =>
        by_cases hv : v = 0
        · subst hv
          simp [roundIfTruthy]
        · simp [roundIfTruthy, hv]
    · intro v hv hne
      show roundIfTruthy (get_average_intensity db) = _
      rw [hv]
      simp [roundIfTruthy, hne]
    · show roundIfTruthy (get_average_renewable_percentage db) = none ↔ _
      cases h : get_average_renewable_percentage db with
      | none => simp [roundIfTruthy]
      | some v =>
        by_cases hv : v = 0
        · subst hv
          simp [roundIfTruthy]
        · simp [roundIfTruthy, hv]
    · intro v hv hne
      show roundIfTruthy (get_average_renewable_percentage db) = _
      rw [hv]
      simp [roundIfTruthy, hne]
  · rfl

/-- Witness for C4 (amended) at a one-record set with mean intensity 150. -/
theorem C4_amended_overview_nulls_witness :
    get_average_intensity db1 = some 150 ∧ (150 : ℚ) ≠ 0 ∧
    (get_overview_statistics db1).average_intensity = some (round2 150) := by
  have h : get_average_intensity db1 = some 150 := by
    simp [get_average_intensity, db1]
  exact ⟨h, by norm_num,
    (C4_amended_overview_nulls.1 db1).2.1 150 h (by norm_num)⟩

/-- C10: on a non-empty record set whose mean renewable percentage (or mean
intensity) is exactly 0, the overview surfaces the mean as null — the same
output as for an empty record set, because the aggregate result is
truth-tested rather than compared against `None`. -/
theorem C10_zero_mean_surfaces_null (db : List StoredRecord) (_hne : db ≠ []) :
    (get_average_renewable_percentage db = some 0 →
      (get_overview_statistics db).average_renewable_percentage = none ∧
      (get_overview_statistics db).average_renewable_percentage =
        (get_overview_statistics []).average_renewable_percentage) ∧
    (get_average_intensity db = some 0 →
      (get_overview_statistics db).average_intensity = none ∧
      (get_overview_statistics db).average_intensity =
        (get_overview_statistics []).average_intensity) := by
  constructor
  · intro h
    have hn : (get_overview_statistics db).average_renewable_percentage = none := by
      show roundIfTruthy (get_average_renewable_percentage db) = none
      rw [h]
      simp [roundIfTruthy]
    exact ⟨hn, by rw [hn]; rfl⟩
  · intro h
    have hn : (get_overview_statistics db).average_intensity = none := by
      show roundIfTruthy (get_average_intensity db) = none
      rw [h]
      simp [roundIfTruthy]
    exact ⟨hn, by rw [hn]; rfl⟩

/-- Witness for C10 at the one-record set whose means are 0. -/
theorem C10_zero_mean_surfaces_null_witness :
    db0 ≠ [] ∧ get_average_renewable_percentage db0 = some 0 ∧
    (get_overview_statistics db0).average_renewable_percentage = none := by
  have hne : db0 ≠ [] := by simp [db0]
  have h : get_average_renewable_percentage db0 = some 0 := by
    simp [get_average_renewable_percentage, db0]
  exact ⟨hne, h, ((C10_zero_mean_surfaces_null db0 hne).1 h).1⟩

lemma checkRenewable_ok (d2 : CarbonData)
    (hrp : d2.renewable_percentage = none ∨
      ∃ rp, d2.renewable_percentage = some rp ∧ 0 ≤ rp ∧ rp ≤ 100) :
    checkRenewable d2 = .ok d2 := by
  unfold checkRenewable
  rcases hrp with hn | ⟨rp, hsome, h0, h100⟩
  · rw [hn]
  · rw [hsome]
    dsimp only
    rw [if_neg (by push_neg; exact ⟨h0, h100⟩)]

lemma validate_rest_ok (d : CarbonData)
    (hrp : d.renewable_percentage = none ∨
      ∃ rp, d.renewable_percentage = some rp ∧ 0 ≤ rp ∧ rp ≤ 100) :
    ∃ res, validate_rest d = .ok res ∧
      res.intensity_index = d.intensity_index := by
  unfold validate_rest
  cases hpc : d.postcode with
  | none => exact ⟨d, checkRenewable_ok d hrp, rfl⟩
  | some pc =>
    dsimp only
    by_cases hempty : pc = ""
    · rw [if_pos hempty]
      exact ⟨d, checkRenewable_ok d hrp, rfl⟩
    · rw [if_neg hempty]
      exact ⟨{ d with postcode := some (pyUpper pc.trim) },
        checkRenewable_ok _ hrp, rfl⟩

/-- C9: the service write paths accept as `intensity_index` exactly the four
labels low/moderate/high/very-high, case-insensitively and stored lowercased,
and reject every other non-empty label with HTTP 400 — including the labels
"very low" and "unknown" that the threshold utility itself produces, so a
record labeled `calculate_intensity_index(v)` for `v = 50 < 100` cannot be
created through the API. -/
theorem C9_intensity_index_validation :
    (∀ (d : CarbonData) (idx : String), d.intensity_index = some idx →
      idx ≠ "" → valid_indices.contains (pyLower idx) = false →
      create_carbon_record d = .error 400 ∧
      update_carbon_record true d = .error 400) ∧
    (∀ (d : CarbonData) (idx : String), d.intensity_index = some idx →
      idx ≠ "" → valid_indices.contains (pyLower idx) = true →
      (d.renewable_percentage = none ∨
        ∃ rp, d.renewable_percentage = some rp ∧ 0 ≤ rp ∧ rp ≤ 100) →
      (∃ res, create_carbon_record d = .ok res ∧
        res.intensity_index = some (pyLower idx)) ∧
      (∃ res, update_carbon_record true d = .ok res ∧
        res.intensity_index = some (pyLower idx))) ∧
    calculate_intensity_index (some 50) = "very low" ∧
    create_carbon_record ⟨some (calculate_intensity_index (some 50)), none, none⟩ =
      .error 400 ∧
    create_carbon_record ⟨some "unknown", none, none⟩ = .error 400 ∧
    update_carbon_record true ⟨some "very low", none, none⟩ = .error 400 := by
  have hcalc : calculate_intensity_index (some 50) = "very low" := by
    norm_num [calculate_intensity_index]
  refine ⟨?_, ?_, hcalc, ?_, rfl, rfl⟩
  · intro d idx hidx hne hcont
    have hval : validate_carbon_payload d = .error 400 := by
      unfold validate_carbon_payload
      rw [hidx]
      dsimp only
      rw [if_neg hne, hcont]
      simp
    constructor
    · unfold create_carbon_record
      rw [hval]
    · unfold update_carbon_record
      rw [hval]
  · intro d idx hidx hne hcont hrp
    have hrp' : ({ d with intensity_index := some (pyLower idx) } :
        CarbonData).renewable_percentage = none ∨
        ∃ rp, ({ d with intensity_index := some (pyLower idx) } :
          CarbonData).renewable_percentage = some rp ∧ 0 ≤ rp ∧ rp ≤ 100 := hrp
    obtain ⟨res, hres, hfield⟩ :=
      validate_rest_ok { d with intensity_index := some (pyLower idx) } hrp'
    have hval : validate_carbon_payload d = .ok res := by
      unfold validate_carbon_payload
      rw [hidx]
      dsimp only
      rw [if_neg hne, hcont]
      simpa using hres
    constructor
    · refine ⟨res, ?_, hfield⟩
      unfold create_carbon_record
      rw [hval]
      rfl
    · refine ⟨res, ?_, hfield⟩
      unfold update_carbon_record
      rw [hval]
      rfl
  · rw [hcalc]
    rfl

/-- Witness for C9: the unknown label "banana" is rejected with 400; the
label "HIGH" is accepted and stored lowercased. -/
theorem C9_intensity_index_validation_witness :
    create_carbon_record ⟨some "banana", none, none⟩ = .error 400 ∧
    (∃ res, create_carbon_record ⟨some "HIGH", none, none⟩ = .ok res ∧
      res.intensity_index = some (pyLower "HIGH")) := by
  have h1 : (CarbonData.mk (some "banana") none none).intensity_index =
      some "banana" := rfl
  have h2 : ("banana" : String) ≠ "" := by decide
  have h3 : valid_indices.contains (pyLower "banana") = false := by decide
  have h4 : (CarbonData.mk (some "HIGH") none none).intensity_index =
      some "HIGH" := rfl
  have h5 : ("HIGH" : String) ≠ "" := by decide
  have h6 : valid_indices.contains (pyLower "HIGH") = true := by decide
  have h7 : (CarbonData.mk (some "HIGH") none none).renewable_percentage =
      none ∨ ∃ rp, (CarbonData.mk (some "HIGH") none none).renewable_percentage =
      some rp ∧ 0 ≤ rp ∧ rp ≤ 100 := Or.inl rfl
  exact ⟨(C9_intensity_index_validation.1 _ "banana" h1 h2 h3).1,
    (C9_intensity_index_validation.2.1 _ "HIGH" h4 h5 h6 h7).1⟩

end SmartCity
